import Mathlib

/-!
Shallow embedding of `src/Graphics/GraphicsEngine/src/PipelineResourceSignatureBase.cpp`
(DiligentCore): descriptor validation, combined-texture-sampler resolution,
immutable-sampler lookup, structural compatibility and canonical hashing of
pipeline resource signature descriptions.

Modelling conventions:
- C strings (`const char*`) become `Option String`; `none` is a null pointer,
  `some ""` an empty string.
- `SHADER_TYPE` stage masks and `PIPELINE_RESOURCE_FLAGS` bit sets become `Nat`
  with bitwise `&&&` / `|||`; `SHADER_TYPE_UNKNOWN` is `0`.
- Array pointers become `Option (List _)` (`none` = null) with a separate
  element count, matching the C++ struct layout; element access past the list
  uses a default element (the C++ contract makes that unreachable).
- Exceptions thrown by `LOG_PRS_ERROR_AND_THROW` become `Except VErr Unit`
  with one `VErr` constructor per throw site, carrying the offending index or
  name that the diagnostic message embeds.
-/

namespace Diligent

/-- `SHADER_RESOURCE_TYPE`: the closed set of resource kinds
(`SHADER_RESOURCE_TYPE_LAST == 8`, plus `UNKNOWN`). -/
inductive SHADER_RESOURCE_TYPE where
  | unknown
  | constantBuffer
  | bufferSRV
  | bufferUAV
  | textureSRV
  | textureUAV
  | sampler
  | inputAttachment
  | accelStruct
deriving DecidableEq, Repr, Inhabited

/-- `SHADER_RESOURCE_VARIABLE_TYPE`: binding-frequency class. -/
inductive SHADER_RESOURCE_VARIABLE_TYPE where
  | static
  | mutable
  | dynamic
deriving DecidableEq, Repr, Inhabited

/-- Numeric encoding of a resource kind (the C++ enum value), used by hashing. -/
def SHADER_RESOURCE_TYPE.toNat : SHADER_RESOURCE_TYPE → Nat
  | .unknown => 0
  | .constantBuffer => 1
  | .bufferSRV => 2
  | .bufferUAV => 3
  | .textureSRV => 4
  | .textureUAV => 5
  | .sampler => 6
  | .inputAttachment => 7
  | .accelStruct => 8

/-- Numeric encoding of a variable type (the C++ enum value), used by hashing. -/
def SHADER_RESOURCE_VARIABLE_TYPE.toNat : SHADER_RESOURCE_VARIABLE_TYPE → Nat
  | .static => 0
  | .mutable => 1
  | .dynamic => 2

/-- `PIPELINE_RESOURCE_FLAG_NONE`. -/
def PIPELINE_RESOURCE_FLAG_NONE : Nat := 0

/-- `PIPELINE_RESOURCE_FLAG_NO_DYNAMIC_BUFFERS`. -/
def PIPELINE_RESOURCE_FLAG_NO_DYNAMIC_BUFFERS : Nat := 1

/-- `PIPELINE_RESOURCE_FLAG_COMBINED_SAMPLER`. -/
def PIPELINE_RESOURCE_FLAG_COMBINED_SAMPLER : Nat := 2

/-- `PIPELINE_RESOURCE_FLAG_FORMATTED_BUFFER`. -/
def PIPELINE_RESOURCE_FLAG_FORMATTED_BUFFER : Nat := 4

/-- `PIPELINE_RESOURCE_FLAG_RUNTIME_ARRAY`. -/
def PIPELINE_RESOURCE_FLAG_RUNTIME_ARRAY : Nat := 8

/-- Modelled from the spec: `MAX_RESOURCE_SIGNATURES`, the fixed maximum
signature slot count (a header constant not under `src/`; §3 invariant 1 and
§9 treat it as a fixed configuration value). -/
def MAX_RESOURCE_SIGNATURES : Nat := 8

/-- Modelled from the spec: `MAX_RESOURCES_IN_SIGNATURE`, the fixed maximum
number of resources per signature (a header constant not under `src/`). -/
def MAX_RESOURCES_IN_SIGNATURE : Nat := 256

/-- Modelled from the spec: `GetValidPipelineResourceFlags` (declared outside
`src/`) is the fixed kind → legal-flags lookup table of §3: the runtime-array
flag is valid only for certain kinds (array-capable SRV/UAV and acceleration
structures), samplers and input attachments admit no flags. -/
def GetValidPipelineResourceFlags : SHADER_RESOURCE_TYPE → Nat
  | .unknown => PIPELINE_RESOURCE_FLAG_NONE
  | .constantBuffer => PIPELINE_RESOURCE_FLAG_NO_DYNAMIC_BUFFERS
  | .bufferSRV =>
      PIPELINE_RESOURCE_FLAG_NO_DYNAMIC_BUFFERS |||
      PIPELINE_RESOURCE_FLAG_FORMATTED_BUFFER |||
      PIPELINE_RESOURCE_FLAG_RUNTIME_ARRAY
  | .bufferUAV =>
      PIPELINE_RESOURCE_FLAG_NO_DYNAMIC_BUFFERS |||
      PIPELINE_RESOURCE_FLAG_FORMATTED_BUFFER |||
      PIPELINE_RESOURCE_FLAG_RUNTIME_ARRAY
  | .textureSRV =>
      PIPELINE_RESOURCE_FLAG_COMBINED_SAMPLER |||
      PIPELINE_RESOURCE_FLAG_RUNTIME_ARRAY
  | .textureUAV => PIPELINE_RESOURCE_FLAG_RUNTIME_ARRAY
  | .sampler => PIPELINE_RESOURCE_FLAG_NONE
  | .inputAttachment => PIPELINE_RESOURCE_FLAG_NONE
  | .accelStruct => PIPELINE_RESOURCE_FLAG_RUNTIME_ARRAY

/-- `PipelineResourceDesc`: one declared shader resource binding. -/
structure PipelineResourceDesc where
  Name : Option String
  ShaderStages : Nat
  ArraySize : Nat
  ResourceType : SHADER_RESOURCE_TYPE
  VarType : SHADER_RESOURCE_VARIABLE_TYPE
  Flags : Nat
deriving DecidableEq, Repr, Inhabited

/-- `ImmutableSamplerDesc`: one declared fixed sampler state. The `SamplerDesc`
payload (`Desc`) is opaque to this core and compared/hashed by value, so it is
modelled as a `Nat`. -/
structure ImmutableSamplerDesc where
  SamplerOrTextureName : Option String
  ShaderStages : Nat
  Desc : Nat
deriving DecidableEq, Repr, Inhabited

/-- `PipelineResourceSignatureDesc`: the unit that is validated, compared and
hashed. Counts are stored separately from the (possibly null) array pointers,
as in the C++ struct. -/
structure PipelineResourceSignatureDesc where
  BindingIndex : Nat
  NumResources : Nat
  Resources : Option (List PipelineResourceDesc)
  NumImmutableSamplers : Nat
  ImmutableSamplers : Option (List ImmutableSamplerDesc)
  UseCombinedTextureSamplers : Bool
  CombinedSamplerSuffix : Option String
deriving DecidableEq, Repr

/-- `Desc.Resources[i]` (pointer dereference; the element default is
unreachable under the C++ contract `i < NumResources ≤ length`). -/
def resourceAt (d : PipelineResourceSignatureDesc) (i : Nat) : PipelineResourceDesc :=
  (d.Resources.getD []).getD i default

/-- The `NumResources`-long view of `Desc.Resources` that the validation loops
traverse (`for (Uint32 i = 0; i < Desc.NumResources; ++i)`). -/
def resourceList (d : PipelineResourceSignatureDesc) : List PipelineResourceDesc :=
  (List.range d.NumResources).map (resourceAt d)

/-- `Desc.ImmutableSamplers[i]` (pointer dereference). -/
def imtblAt (d : PipelineResourceSignatureDesc) (i : Nat) : ImmutableSamplerDesc :=
  (d.ImmutableSamplers.getD []).getD i default

/-- The `NumImmutableSamplers`-long view of `Desc.ImmutableSamplers`. -/
def imtblList (d : PipelineResourceSignatureDesc) : List ImmutableSamplerDesc :=
  (List.range d.NumImmutableSamplers).map (imtblAt d)

/-- One constructor per `LOG_PRS_ERROR_AND_THROW` site of
`ValidatePipelineResourceSignatureDesc`, in source order, carrying the index
or name that the diagnostic message embeds. -/
inductive VErr where
  | bindingIndexExceedsMax
  | numResourcesExceedsMax
  | resourcesNullWithNonzeroCount
  | immutableSamplersNullWithNonzeroCount
  | combinedSamplerSuffixNullOrEmpty
  | resourceNameNull (i : Nat)
  | resourceNameEmpty (i : Nat)
  | resourceStagesUnknown (i : Nat)
  | resourceArraySizeZero (i : Nat)
  | resourceOverlappingStages (i : Nat)
  | runtimeArrayNotSupported (i : Nat)
  | resourceInvalidFlags (i : Nat)
  | combinedNotASampler (samName : String)
  | combinedStagesMismatch (samName : String)
  | combinedVarTypeMismatch (samName : String)
  | samplerNotAssigned (samName : String)
  | imtblSamplerNameNull (i : Nat)
  | imtblSamplerNameEmpty (i : Nat)
  | imtblSamplerOverlappingStages (i : Nat)
deriving DecidableEq, Repr

/-- The spec's error taxonomy (§7). -/
inductive ErrorKind where
  | LimitExceeded
  | NullOrEmptyField
  | InvalidFieldValue
  | DuplicateNameOverlappingStages
  | InvalidFlagsForResourceType
  | CombinedSamplerMismatch
  | UnassignedSampler
  | DuplicateImmutableSampler
deriving DecidableEq, Repr

/-- Classification of each throw site into the spec's error taxonomy (§7):
both the capability-gated runtime-array error and the illegal-flag-bits error
are `InvalidFlagsForResourceType`; all three combined-sampler candidate
mismatches are `CombinedSamplerMismatch`. -/
def VErr.kindOf : VErr → ErrorKind
  | .bindingIndexExceedsMax => .LimitExceeded
  | .numResourcesExceedsMax => .LimitExceeded
  | .resourcesNullWithNonzeroCount => .NullOrEmptyField
  | .immutableSamplersNullWithNonzeroCount => .NullOrEmptyField
  | .combinedSamplerSuffixNullOrEmpty => .NullOrEmptyField
  | .resourceNameNull _ => .NullOrEmptyField
  | .resourceNameEmpty _ => .NullOrEmptyField
  | .resourceStagesUnknown _ => .InvalidFieldValue
  | .resourceArraySizeZero _ => .InvalidFieldValue
  | .resourceOverlappingStages _ => .DuplicateNameOverlappingStages
  | .runtimeArrayNotSupported _ => .InvalidFlagsForResourceType
  | .resourceInvalidFlags _ => .InvalidFlagsForResourceType
  | .combinedNotASampler _ => .CombinedSamplerMismatch
  | .combinedStagesMismatch _ => .CombinedSamplerMismatch
  | .combinedVarTypeMismatch _ => .CombinedSamplerMismatch
  | .samplerNotAssigned _ => .UnassignedSampler
  | .imtblSamplerNameNull _ => .NullOrEmptyField
  | .imtblSamplerNameEmpty _ => .NullOrEmptyField
  | .imtblSamplerOverlappingStages _ => .DuplicateImmutableSampler

/-- Lookup in the name → accumulated-stage-mask map
(`ResourceShaderStages` / `ImtblSamShaderStages`); a missing key reads as `0`,
matching `operator[]` value-initialisation. -/
def stagesOf (m : List (String × Nat)) (n : String) : Nat :=
  match m.find? (fun p => p.1 == n) with
  | some p => p.2
  | none => 0

/-- `UsedStages |= Res.ShaderStages`: OR the mask into the map entry,
inserting the key if absent. -/
def addStages (m : List (String × Nat)) (n : String) (s : Nat) : List (String × Nat) :=
  match m with
  | [] => [(n, s)]
  | p :: rest => if p.1 == n then (p.1, p.2 ||| s) :: rest else p :: addStages rest n s

/-- The per-resource flag checks (lines 86–99): the capability-gated
runtime-array check first, then the legal-flag-bits check against
`GetValidPipelineResourceFlags`. `(Flags & ~Allowed) != 0` over the machine
bit set is expressed over `Nat` as `Flags &&& Allowed ≠ Flags`. -/
def checkResourceFlags (supported : Bool) (i : Nat) (r : PipelineResourceDesc) : Option VErr :=
  if r.Flags &&& PIPELINE_RESOURCE_FLAG_RUNTIME_ARRAY != 0 && !supported then
    some (.runtimeArrayNotSupported i)
  else if r.Flags &&& GetValidPipelineResourceFlags r.ResourceType != r.Flags then
    some (.resourceInvalidFlags i)
  else
    none

/-- The first validation loop (lines 61–113): per-resource field checks, the
name/stage-overlap uniqueness check, the flag checks, and the accumulation of
`ResourcesByName` (returned, in insertion order, as the working set for the
combined-sampler resolver). -/
def validateResources (supported : Bool) :
    Nat → List PipelineResourceDesc → List (String × Nat) →
    List PipelineResourceDesc → Except VErr (List PipelineResourceDesc)
  | _, [], _, acc => .ok acc
  | i, r :: rest, m, acc =>
    match r.Name with
    | none => .error (.resourceNameNull i)
    | some name =>
      if name == "" then .error (.resourceNameEmpty i)
      else if r.ShaderStages == 0 then .error (.resourceStagesUnknown i)
      else if r.ArraySize == 0 then .error (.resourceArraySizeZero i)
      else if stagesOf m name &&& r.ShaderStages != 0 then .error (.resourceOverlappingStages i)
      else
        match checkResourceFlags supported i r with
        | some e => .error e
        | none => validateResources supported (i + 1) rest (addStages m name r.ShaderStages) (acc ++ [r])

/-- The candidate predicate of the combined-sampler loop: an entry of the
working set with the assigned name (`equal_range`) whose stage mask overlaps
the texture's (line 131). -/
def combinedCandidate (assigned : String) (tex : PipelineResourceDesc)
    (s : PipelineResourceDesc) : Bool :=
  s.Name == some assigned && s.ShaderStages &&& tex.ShaderStages != 0

/-- Remove the first element satisfying `p` (the `ResourcesByName.erase sam_it`
of line 150, determinised to list order). -/
def eraseFirstP (p : α → Bool) : List α → List α
  | [] => []
  | x :: xs => if p x then xs else x :: eraseFirstP p xs

/-- One iteration of the combined-sampler loop body (lines 120–155) for a
single resource `tex` over working set `ws`: non-textures are skipped; the
first same-name, stage-overlapping candidate is checked (kind must be sampler,
stage masks must be exactly equal, variable types must agree) and, on success,
removed from the working set. -/
def claimSampler (suffix : String) (ws : List PipelineResourceDesc)
    (tex : PipelineResourceDesc) : Except VErr (List PipelineResourceDesc) :=
  if tex.ResourceType = .textureSRV then
    let assigned := tex.Name.getD "" ++ suffix
    match ws.find? (combinedCandidate assigned tex) with
    | none => .ok ws
    | some sam =>
      if sam.ResourceType ≠ .sampler then .error (.combinedNotASampler assigned)
      else if sam.ShaderStages ≠ tex.ShaderStages then .error (.combinedStagesMismatch assigned)
      else if sam.VarType ≠ tex.VarType then .error (.combinedVarTypeMismatch assigned)
      else .ok (eraseFirstP (combinedCandidate assigned tex) ws)
  else
    .ok ws

/-- The combined-sampler resolution loop (lines 118–156): fold `claimSampler`
over all resources, threading the working set. -/
def resolveCombinedSamplers (suffix : String) :
    List PipelineResourceDesc → List PipelineResourceDesc →
    Except VErr (List PipelineResourceDesc)
  | [], ws => .ok ws
  | t :: rest, ws =>
    match claimSampler suffix ws t with
    | .error e => .error e
    | .ok ws2 => resolveCombinedSamplers suffix rest ws2

/-- The unassigned-sampler sweep (lines 158–164): any sampler-kind entry left
in the working set is an error (iteration determinised to list order). -/
def findUnassignedSampler (ws : List PipelineResourceDesc) : Option VErr :=
  match ws.find? (fun r => r.ResourceType == .sampler) with
  | some r => some (.samplerNotAssigned (r.Name.getD ""))
  | none => none

/-- The immutable-sampler loop (lines 168–185): name null/empty checks and the
name/stage-overlap uniqueness check over a separate accumulator. -/
def validateImtblSamplers :
    Nat → List ImmutableSamplerDesc → List (String × Nat) → Except VErr Unit
  | _, [], _ => .ok ()
  | i, s :: rest, m =>
    match s.SamplerOrTextureName with
    | none => .error (.imtblSamplerNameNull i)
    | some name =>
      if name == "" then .error (.imtblSamplerNameEmpty i)
      else if stagesOf m name &&& s.ShaderStages != 0 then
        .error (.imtblSamplerOverlappingStages i)
      else validateImtblSamplers (i + 1) rest (addStages m name s.ShaderStages)

/-- `ValidatePipelineResourceSignatureDesc` (lines 40–186): the limit, null
and suffix checks in source order, the per-resource loop, the
combined-sampler resolution (only when `UseCombinedTextureSamplers`), the
unassigned-sampler sweep, and the immutable-sampler loop. A thrown exception
is the first error in program order. -/
def ValidatePipelineResourceSignatureDesc (Desc : PipelineResourceSignatureDesc)
    (ShaderResourceRuntimeArraySupported : Bool) : Except VErr Unit :=
  if Desc.BindingIndex ≥ MAX_RESOURCE_SIGNATURES then
    .error .bindingIndexExceedsMax
  else if Desc.NumResources > MAX_RESOURCES_IN_SIGNATURE then
    .error .numResourcesExceedsMax
  else if Desc.NumResources != 0 && Desc.Resources.isNone then
    .error .resourcesNullWithNonzeroCount
  else if Desc.NumImmutableSamplers != 0 && Desc.ImmutableSamplers.isNone then
    .error .immutableSamplersNullWithNonzeroCount
  else if Desc.UseCombinedTextureSamplers && (Desc.CombinedSamplerSuffix.getD "").isEmpty then
    .error .combinedSamplerSuffixNullOrEmpty
  else
    match validateResources ShaderResourceRuntimeArraySupported 0 (resourceList Desc) [] [] with
    | .error e => .error e
    | .ok ws =>
      if Desc.UseCombinedTextureSamplers then
        match resolveCombinedSamplers (Desc.CombinedSamplerSuffix.getD "") (resourceList Desc) ws with
        | .error e => .error e
        | .ok ws2 =>
          match findUnassignedSampler ws2 with
          | some e => .error e
          | none => validateImtblSamplers 0 (imtblList Desc) []
      else
        validateImtblSamplers 0 (imtblList Desc) []

/-- Modelled from the spec: `StreqSuff` from `StringTools.hpp` (not under
`src/`). Per §4.4 an entry name matches when it equals the resource name
exactly, or equals the resource name with the suffix appended when a suffix
is supplied; comparison is exact and byte-for-byte (§9). -/
def StreqSuff (ResourceName : String) (SamName : Option String)
    (SamplerSuffix : Option String) : Bool :=
  SamName == some ResourceName ||
    (match SamplerSuffix with
     | some suf => SamName == some (ResourceName ++ suf)
     | none => false)

/-- Modelled from the spec: `InvalidImmutableSamplerIndex`, the not-found
sentinel returned by `FindImmutableSampler` (a header constant not under
`src/`; the all-ones `Uint32`). -/
def InvalidImmutableSamplerIndex : Nat := 4294967295

/-- The match condition of `FindImmutableSampler`'s loop (line 200): the
entry's stage mask intersects the requested one and the name matches via
`StreqSuff`. -/
def immutableSamplerMatches (ShaderStages : Nat) (ResourceName : String)
    (SamplerSuffix : Option String) (Sam : ImmutableSamplerDesc) : Bool :=
  Sam.ShaderStages &&& ShaderStages != 0 &&
    StreqSuff ResourceName Sam.SamplerOrTextureName SamplerSuffix

/-- The scan of `FindImmutableSampler` (lines 197–209), carrying the running
index `s`. The `DEV_CHECK_ERR` superset diagnostic has no control-flow effect
and is omitted (§4.4 keeps it non-fatal). -/
def FindImmutableSamplerLoop (ShaderStages : Nat) (ResourceName : String)
    (SamplerSuffix : Option String) :
    Nat → List ImmutableSamplerDesc → Nat
  | _, [] => InvalidImmutableSamplerIndex
  | s, Sam :: rest =>
    if immutableSamplerMatches ShaderStages ResourceName SamplerSuffix Sam then s
    else FindImmutableSamplerLoop ShaderStages ResourceName SamplerSuffix (s + 1) rest

/-- `FindImmutableSampler` (lines 191–212): first matching index in scan
order, or the sentinel. -/
def FindImmutableSampler (ImtblSamplers : List ImmutableSamplerDesc)
    (ShaderStages : Nat) (ResourceName : String)
    (SamplerSuffix : Option String) : Nat :=
  FindImmutableSamplerLoop ShaderStages ResourceName SamplerSuffix 0 ImtblSamplers

/-- `PipelineResourcesCompatible` (lines 215–225): per-resource structural
equality, names ignored. -/
def PipelineResourcesCompatible (lhs rhs : PipelineResourceDesc) : Bool :=
  lhs.ShaderStages == rhs.ShaderStages &&
  lhs.ArraySize == rhs.ArraySize &&
  lhs.ResourceType == rhs.ResourceType &&
  lhs.VarType == rhs.VarType &&
  lhs.Flags == rhs.Flags

/-- `PipelineResourceSignaturesCompatible` (lines 227–256): positional
structural equality of two signatures, names ignored. -/
def PipelineResourceSignaturesCompatible
    (Desc0 Desc1 : PipelineResourceSignatureDesc) : Bool :=
  Desc0.BindingIndex == Desc1.BindingIndex &&
  Desc0.NumResources == Desc1.NumResources &&
  (List.range Desc0.NumResources).all
    (fun r => PipelineResourcesCompatible (resourceAt Desc0 r) (resourceAt Desc1 r)) &&
  Desc0.NumImmutableSamplers == Desc1.NumImmutableSamplers &&
  (List.range Desc0.NumImmutableSamplers).all
    (fun s =>
      (imtblAt Desc0 s).ShaderStages == (imtblAt Desc1 s).ShaderStages &&
      (imtblAt Desc0 s).Desc == (imtblAt Desc1 s).Desc)

/-- Modelled from the spec: `HashCombine` from `HashUtils.hpp` (not under
`src/`) folds one value into a 64-bit seed (the boost-style combine); the
spec (§4.6) requires only a fixed deterministic order-sensitive fold. -/
def HashCombine (seed v : Nat) : Nat :=
  (seed ^^^ (v + 2654435769 + seed * 64 + seed / 4)) % (2 ^ 64)

/-- Modelled from the spec: variadic `ComputeHash` from `HashUtils.hpp` (not
under `src/`): fold the arguments into a fresh seed with `HashCombine`. -/
def ComputeHash (vs : List Nat) : Nat := vs.foldl HashCombine 0

/-- The tuple of one resource's fields folded into the hash (line 268):
stage mask, array size, resource type, variable type, flags — never the name. -/
def resourceHashValues (r : PipelineResourceDesc) : List Nat :=
  [r.ShaderStages, r.ArraySize, r.ResourceType.toNat, r.VarType.toNat, r.Flags]

/-- `CalculatePipelineResourceSignatureDescHash` (lines 258–277): the empty
sentinel `0`, the seed from the counts and the binding index, then the
in-order folds over resources and immutable samplers. -/
def CalculatePipelineResourceSignatureDescHash
    (Desc : PipelineResourceSignatureDesc) : Nat :=
  if Desc.NumResources == 0 && Desc.NumImmutableSamplers == 0 then 0
  else
    let h0 := ComputeHash [Desc.NumResources, Desc.NumImmutableSamplers, Desc.BindingIndex]
    let h1 := (List.range Desc.NumResources).foldl
      (fun h i => (resourceHashValues (resourceAt Desc i)).foldl HashCombine h) h0
    (List.range Desc.NumImmutableSamplers).foldl
      (fun h i => HashCombine (HashCombine h (imtblAt Desc i).ShaderStages) (imtblAt Desc i).Desc) h1

/-! ### Concrete scenario descriptors (spec §8) -/

/-- `SHADER_TYPE_VERTEX` stage bit. -/
def SHADER_TYPE_VERTEX : Nat := 1

/-- `SHADER_TYPE_PIXEL` (fragment) stage bit. -/
def SHADER_TYPE_PIXEL : Nat := 2

/-- Texture `"Tex"` declared for the fragment stage (spec §8, combined-sampler
pairing scenario). -/
def texFragment : PipelineResourceDesc :=
  { Name := some "Tex", ShaderStages := SHADER_TYPE_PIXEL, ArraySize := 1,
    ResourceType := .textureSRV, VarType := .static, Flags := 0 }

/-- Sampler `"Tex_suffix"` declared for the fragment stage. -/
def samplerFragment : PipelineResourceDesc :=
  { Name := some "Tex_suffix", ShaderStages := SHADER_TYPE_PIXEL, ArraySize := 1,
    ResourceType := .sampler, VarType := .static, Flags := 0 }

/-- Sampler `"Tex_suffix"` declared for the vertex stage only. -/
def samplerVertexOnly : PipelineResourceDesc :=
  { Name := some "Tex_suffix", ShaderStages := SHADER_TYPE_VERTEX, ArraySize := 1,
    ResourceType := .sampler, VarType := .static, Flags := 0 }

/-- Combined-mode descriptor pairing `texFragment` with `samplerFragment`
(suffix `"_suffix"`). -/
def combinedPairDesc : PipelineResourceSignatureDesc :=
  { BindingIndex := 0, NumResources := 2,
    Resources := some [texFragment, samplerFragment],
    NumImmutableSamplers := 0, ImmutableSamplers := none,
    UseCombinedTextureSamplers := true, CombinedSamplerSuffix := some "_suffix" }

/-- `combinedPairDesc` with the sampler's stage changed to vertex-only. -/
def combinedVertexSamplerDesc : PipelineResourceSignatureDesc :=
  { BindingIndex := 0, NumResources := 2,
    Resources := some [texFragment, samplerVertexOnly],
    NumImmutableSamplers := 0, ImmutableSamplers := none,
    UseCombinedTextureSamplers := true, CombinedSamplerSuffix := some "_suffix" }

/-- Two same-named resources `"X"` with stage masks `s1`, `s2` and no other
irregularities (spec §8, disjoint-duplicates scenario). -/
def duplicateNameDesc (s1 s2 : Nat) : PipelineResourceSignatureDesc :=
  { BindingIndex := 0, NumResources := 2,
    Resources := some
      [{ Name := some "X", ShaderStages := s1, ArraySize := 1,
         ResourceType := .constantBuffer, VarType := .static, Flags := 0 },
       { Name := some "X", ShaderStages := s2, ArraySize := 1,
         ResourceType := .constantBuffer, VarType := .static, Flags := 0 }],
    NumImmutableSamplers := 0, ImmutableSamplers := none,
    UseCombinedTextureSamplers := false, CombinedSamplerSuffix := none }

/-- A descriptor holding exactly one resource binding and nothing else
irregular (carrier for the per-binding flag-legality claims). -/
def singleResourceDesc (r : PipelineResourceDesc) : PipelineResourceSignatureDesc :=
  { BindingIndex := 0, NumResources := 1, Resources := some [r],
    NumImmutableSamplers := 0, ImmutableSamplers := none,
    UseCombinedTextureSamplers := false, CombinedSamplerSuffix := none }

/-! ### Helper lemmas -/

/-- `List.foldl` respects pointwise agreement of the fold functions on the
list's members. -/
theorem foldl_congr_on {α β : Type} (l : List β) (f g : α → β → α) (a : α)
    (h : ∀ b ∈ l, ∀ acc, f acc b = g acc b) : l.foldl f a = l.foldl g a := by
  induction l generalizing a with
  | nil => rfl
  | cons x xs ih =>
    simp only [List.foldl_cons]
    rw [h x (by simp)]
    exact ih _ (fun b hb acc => h b (by simp [hb]) acc)

/-- Removing the first `p`-satisfying element (when one exists) decreases the
count of `p`-satisfying elements by exactly one. -/
theorem countP_eraseFirstP {α : Type} (p : α → Bool) (l : List α) (a : α)
    (h : l.find? p = some a) :
    (eraseFirstP p l).countP p + 1 = l.countP p := by
  induction l with
  | nil => simp [List.find?] at h
  | cons x xs ih =>
    by_cases hx : p x
    · simp [eraseFirstP, hx, List.countP_cons]
    · rw [List.find?_cons_of_neg _ (by simp [hx])] at h
      simp [eraseFirstP, hx, List.countP_cons, ih h]

/-- A bit set contained in `a` has empty intersection with any mask disjoint
from `a`. -/
theorem land_eq_zero_of_subset {f a m : Nat} (hsub : f &&& a = f)
    (hdis : a &&& m = 0) : f &&& m = 0 := by
  calc f &&& m = (f &&& a) &&& m := by rw [hsub]
    _ = f &&& (a &&& m) := Nat.land_assoc f a m
    _ = 0 := by rw [hdis]; simp

/-- Evaluation of `ValidatePipelineResourceSignatureDesc` on a single-resource
descriptor whose non-flag fields are valid: the outcome is exactly that of the
per-resource flag checks. -/
theorem validate_single_eval (r : PipelineResourceDesc) (nm : String)
    (hname : r.Name = some nm) (hne : nm ≠ "") (hst : r.ShaderStages ≠ 0)
    (har : r.ArraySize ≠ 0) (supported : Bool) :
    ValidatePipelineResourceSignatureDesc (singleResourceDesc r) supported =
      match checkResourceFlags supported 0 r with
      | some e => .error e
      | none => .ok () := by
  have h1 : (nm == "") = false := by simp [hne]
  have h2 : (r.ShaderStages == 0) = false := by simp [hst]
  have h3 : (r.ArraySize == 0) = false := by simp [har]
  cases hc : checkResourceFlags supported 0 r with
  | none =>
    simp [ValidatePipelineResourceSignatureDesc, singleResourceDesc, resourceList,
          resourceAt, imtblList, validateResources, validateImtblSamplers,
          MAX_RESOURCE_SIGNATURES, MAX_RESOURCES_IN_SIGNATURE,
          hname, h1, h2, h3, stagesOf, hc]
  | some e =>
    simp [ValidatePipelineResourceSignatureDesc, singleResourceDesc, resourceList,
          resourceAt, imtblList, validateResources, validateImtblSamplers,
          MAX_RESOURCE_SIGNATURES, MAX_RESOURCES_IN_SIGNATURE,
          hname, h1, h2, h3, stagesOf, hc]

/-! ### Claim theorems -/

/-- C7: for every descriptor whose `BindingIndex` is at or beyond
`MAX_RESOURCE_SIGNATURES`, `ValidatePipelineResourceSignatureDesc` fails with
the binding-index `LimitExceeded` error; the check precedes all others, so
the result holds no matter what later checks the descriptor would violate. -/
theorem C7_bindingIndex_limit_first (Desc : PipelineResourceSignatureDesc)
    (supported : Bool) (h : Desc.BindingIndex ≥ MAX_RESOURCE_SIGNATURES) :
    ValidatePipelineResourceSignatureDesc Desc supported = .error .bindingIndexExceedsMax ∧
    VErr.kindOf .bindingIndexExceedsMax = .LimitExceeded := by
  unfold ValidatePipelineResourceSignatureDesc
  rw [if_pos h]
  exact ⟨rfl, rfl⟩

/-- Witness for C7: a descriptor with `BindingIndex = 8` that also violates
later checks (a null resource array with a non-zero count) still reports the
limit error. -/
theorem C7_bindingIndex_limit_first_witness :
    ValidatePipelineResourceSignatureDesc
        { BindingIndex := 8, NumResources := 3, Resources := none,
          NumImmutableSamplers := 0, ImmutableSamplers := none,
          UseCombinedTextureSamplers := false, CombinedSamplerSuffix := none } true
      = .error .bindingIndexExceedsMax ∧
    VErr.kindOf .bindingIndexExceedsMax = .LimitExceeded :=
  C7_bindingIndex_limit_first
    { BindingIndex := 8, NumResources := 3, Resources := none,
      NumImmutableSamplers := 0, ImmutableSamplers := none,
      UseCombinedTextureSamplers := false, CombinedSamplerSuffix := none } true (by decide)

/-- C9: every descriptor with zero resources and zero immutable samplers
hashes to the sentinel `0`, regardless of its other fields (including
`BindingIndex`). -/
theorem C9_empty_signature_hash_zero (Desc : PipelineResourceSignatureDesc)
    (h1 : Desc.NumResources = 0) (h2 : Desc.NumImmutableSamplers = 0) :
    CalculatePipelineResourceSignatureDescHash Desc = 0 := by
  simp [CalculatePipelineResourceSignatureDescHash, h1, h2]

/-- Witness for C9: an empty signature with a non-zero binding index and
combined-sampler fields set hashes to `0`. -/
theorem C9_empty_signature_hash_zero_witness :
    CalculatePipelineResourceSignatureDescHash
        { BindingIndex := 7, NumResources := 0, Resources := none,
          NumImmutableSamplers := 0, ImmutableSamplers := none,
          UseCombinedTextureSamplers := true, CombinedSamplerSuffix := some "_s" } = 0 :=
  C9_empty_signature_hash_zero
    { BindingIndex := 7, NumResources := 0, Resources := none,
      NumImmutableSamplers := 0, ImmutableSamplers := none,
      UseCombinedTextureSamplers := true, CombinedSamplerSuffix := some "_s" } rfl rfl

/-- C10: with the limit checks passing, a non-zero resource count with a null
resource array fails (with the resources-null error), and a non-zero
immutable-sampler count with a null sampler array fails (with the
samplers-null error) whenever the resources-null check does not fire; both
results hold for arbitrary array contents, so no element is inspected. -/
theorem C10_null_array_checks (Desc : PipelineResourceSignatureDesc) (supported : Bool)
    (hb : Desc.BindingIndex < MAX_RESOURCE_SIGNATURES)
    (hn : Desc.NumResources ≤ MAX_RESOURCES_IN_SIGNATURE) :
    (Desc.NumResources ≠ 0 → Desc.Resources = none →
      ValidatePipelineResourceSignatureDesc Desc supported =
        .error .resourcesNullWithNonzeroCount) ∧
    (Desc.NumImmutableSamplers ≠ 0 → Desc.ImmutableSamplers = none →
      (Desc.NumResources = 0 ∨ Desc.Resources ≠ none) →
      ValidatePipelineResourceSignatureDesc Desc supported =
        .error .immutableSamplersNullWithNonzeroCount) := by
  constructor
  · intro hr hnone
    unfold ValidatePipelineResourceSignatureDesc
    rw [if_neg (by omega), if_neg (by omega), if_pos (by simp [hnone, hr])]
  · intro hi hnone hres
    unfold ValidatePipelineResourceSignatureDesc
    rw [if_neg (by omega), if_neg (by omega),
        if_neg (by rcases hres with h | h <;> simp [h]),
        if_pos (by simp [hnone, hi])]

/-- Witness for C10: both null-array violations, fired on descriptors whose
array contents (where present) are themselves invalid and are never reached. -/
theorem C10_null_array_checks_witness :
    (ValidatePipelineResourceSignatureDesc
        { BindingIndex := 0, NumResources := 2, Resources := none,
          NumImmutableSamplers := 1, ImmutableSamplers := none,
          UseCombinedTextureSamplers := false, CombinedSamplerSuffix := none } true
      = .error .resourcesNullWithNonzeroCount) ∧
    (ValidatePipelineResourceSignatureDesc
        { BindingIndex := 0, NumResources := 1,
          Resources := some [{ Name := none, ShaderStages := 0, ArraySize := 0,
                               ResourceType := .unknown, VarType := .static, Flags := 0 }],
          NumImmutableSamplers := 1, ImmutableSamplers := none,
          UseCombinedTextureSamplers := false, CombinedSamplerSuffix := none } true
      = .error .immutableSamplersNullWithNonzeroCount) :=
  ⟨(C10_null_array_checks _ true (by decide) (by decide)).1 (by decide) rfl,
   (C10_null_array_checks _ true (by decide) (by decide)).2 (by decide) rfl
     (Or.inr (by decide))⟩

/-- C3 counterexample: in the spec's combined-sampler scenario, changing the
sampler's stage to vertex-only makes `ValidatePipelineResourceSignatureDesc`
fail with the unassigned-sampler error, whose kind is `UnassignedSampler`,
not `CombinedSamplerMismatch` as the claim states: the vertex-only stage mask
no longer overlaps the fragment texture's, so the sampler is never selected
as a candidate and is left unclaimed. -/
theorem C3_counterexample_vertex_sampler :
    ValidatePipelineResourceSignatureDesc combinedVertexSamplerDesc true =
      .error (.samplerNotAssigned "Tex_suffix") ∧
    VErr.kindOf (.samplerNotAssigned "Tex_suffix") ≠ .CombinedSamplerMismatch := by
  constructor
  · rfl
  · decide

/-- C3 (amended): texture `"Tex"` (fragment) with sampler `"Tex_suffix"`
(fragment, same variable type, suffix `"_suffix"`) validates; changing the
sampler's stage to vertex-only makes validation fail with
`UnassignedSampler` (the candidate search requires a stage-mask overlap, so
the vertex-only sampler is never paired and remains unclaimed). -/
theorem C3_amended_combined_scenario :
    ValidatePipelineResourceSignatureDesc combinedPairDesc true = .ok () ∧
    ValidatePipelineResourceSignatureDesc combinedVertexSamplerDesc true =
      .error (.samplerNotAssigned "Tex_suffix") ∧
    VErr.kindOf (.samplerNotAssigned "Tex_suffix") = .UnassignedSampler := by
  exact ⟨rfl, rfl, rfl⟩

/-- C5: for a binding carrying the runtime-array flag in an otherwise valid
single-resource descriptor: when the binding's kind forbids the flag,
validation fails with an `InvalidFlagsForResourceType`-classified error for
both capability settings; when the kind allows the flag (and no other illegal
flag bit is present), validation succeeds exactly when the capability is
enabled, and the failure with the capability disabled is the capability-gated
runtime-array error, also classified `InvalidFlagsForResourceType`. -/
theorem C5_runtime_array_flag_legality (r : PipelineResourceDesc) (nm : String)
    (hname : r.Name = some nm) (hne : nm ≠ "") (hst : r.ShaderStages ≠ 0)
    (har : r.ArraySize ≠ 0)
    (hrt : r.Flags &&& PIPELINE_RESOURCE_FLAG_RUNTIME_ARRAY ≠ 0) :
    (GetValidPipelineResourceFlags r.ResourceType &&&
        PIPELINE_RESOURCE_FLAG_RUNTIME_ARRAY = 0 →
      ∀ supported : Bool, ∃ e,
        ValidatePipelineResourceSignatureDesc (singleResourceDesc r) supported = .error e ∧
        VErr.kindOf e = .InvalidFlagsForResourceType) ∧
    (GetValidPipelineResourceFlags r.ResourceType &&&
        PIPELINE_RESOURCE_FLAG_RUNTIME_ARRAY ≠ 0 →
      r.Flags &&& GetValidPipelineResourceFlags r.ResourceType = r.Flags →
      ∀ supported : Bool,
        (ValidatePipelineResourceSignatureDesc (singleResourceDesc r) supported = .ok () ↔
          supported = true) ∧
        (supported = false →
          ValidatePipelineResourceSignatureDesc (singleResourceDesc r) supported =
            .error (.runtimeArrayNotSupported 0) ∧
          VErr.kindOf (.runtimeArrayNotSupported 0) = .InvalidFlagsForResourceType)) := by
  have heval := validate_single_eval r nm hname hne hst har
  have hrtb : (r.Flags &&& PIPELINE_RESOURCE_FLAG_RUNTIME_ARRAY != 0) = true := by
    simpa using hrt
  constructor
  · intro hforbid supported
    cases supported with
    | false =>
      refine ⟨.runtimeArrayNotSupported 0, ?_, rfl⟩
      rw [heval false]
      simp [checkResourceFlags, hrtb]
    | true =>
      refine ⟨.resourceInvalidFlags 0, ?_, rfl⟩
      rw [heval true]
      have hnsub : r.Flags &&& GetValidPipelineResourceFlags r.ResourceType ≠ r.Flags := by
        intro hsub
        exact hrt (land_eq_zero_of_subset hsub hforbid)
      simp [checkResourceFlags, hrtb, hnsub]
  · intro _ hsub supported
    cases supported with
    | false =>
      constructor
      · rw [heval false]
        simp [checkResourceFlags, hrtb]
      · intro _
        refine ⟨?_, rfl⟩
        rw [heval false]
        simp [checkResourceFlags, hrtb]
    | true =>
      constructor
      · rw [heval true]
        simp [checkResourceFlags, hrtb, hsub]
      · intro h
        exact absurd h (by simp)

/-- Witness for C5: a sampler-kind binding (runtime-array forbidden) carrying
the runtime-array flag fails with an `InvalidFlagsForResourceType` error even
with the capability enabled. -/
theorem C5_runtime_array_flag_legality_witness :
    ∃ e, ValidatePipelineResourceSignatureDesc
        (singleResourceDesc
          { Name := some "Smp", ShaderStages := 1, ArraySize := 1,
            ResourceType := .sampler, VarType := .static,
            Flags := PIPELINE_RESOURCE_FLAG_RUNTIME_ARRAY }) true = .error e ∧
      VErr.kindOf e = .InvalidFlagsForResourceType :=
  (C5_runtime_array_flag_legality
      { Name := some "Smp", ShaderStages := 1, ArraySize := 1,
        ResourceType := .sampler, VarType := .static,
        Flags := PIPELINE_RESOURCE_FLAG_RUNTIME_ARRAY }
      "Smp" rfl (by decide) (by decide) (by decide) (by decide)).1 (by decide) true

/-- C2: in combined mode, when a texture-SRV's suffix-derived name selects a
candidate from the working set (same name, overlapping stage mask), the claim
step fails with a `CombinedSamplerMismatch`-classified error if the
candidate's kind is not sampler, or its stage mask is not exactly the
texture's, or its variable type differs; otherwise it succeeds and removes
the candidate from the working set (the count of matching entries drops by
one, so it cannot be claimed by a second texture). -/
theorem C2_combined_candidate_rules (suffix : String)
    (tex sam : PipelineResourceDesc) (ws : List PipelineResourceDesc)
    (htex : tex.ResourceType = .textureSRV)
    (hfind : ws.find? (combinedCandidate (tex.Name.getD "" ++ suffix) tex) = some sam) :
    ((sam.ResourceType ≠ .sampler ∨ sam.ShaderStages ≠ tex.ShaderStages ∨
        sam.VarType ≠ tex.VarType) →
      ∃ e, claimSampler suffix ws tex = .error e ∧
        VErr.kindOf e = .CombinedSamplerMismatch) ∧
    (sam.ResourceType = .sampler → sam.ShaderStages = tex.ShaderStages →
      sam.VarType = tex.VarType →
      claimSampler suffix ws tex =
        .ok (eraseFirstP (combinedCandidate (tex.Name.getD "" ++ suffix) tex) ws) ∧
      (eraseFirstP (combinedCandidate (tex.Name.getD "" ++ suffix) tex) ws).countP
          (combinedCandidate (tex.Name.getD "" ++ suffix) tex) + 1 =
        ws.countP (combinedCandidate (tex.Name.getD "" ++ suffix) tex)) := by
  have hstep : claimSampler suffix ws tex =
      (if sam.ResourceType ≠ .sampler then
        .error (.combinedNotASampler (tex.Name.getD "" ++ suffix))
      else if sam.ShaderStages ≠ tex.ShaderStages then
        .error (.combinedStagesMismatch (tex.Name.getD "" ++ suffix))
      else if sam.VarType ≠ tex.VarType then
        .error (.combinedVarTypeMismatch (tex.Name.getD "" ++ suffix))
      else .ok (eraseFirstP (combinedCandidate (tex.Name.getD "" ++ suffix) tex) ws)) := by
    rw [claimSampler, if_pos htex]
    simp only [hfind]
  constructor
  · intro hmis
    rw [hstep]
    by_cases h1 : sam.ResourceType = .sampler
    · rw [if_neg (not_not_intro h1)]
      by_cases h2 : sam.ShaderStages = tex.ShaderStages
      · rw [if_neg (not_not_intro h2)]
        have h3 : sam.VarType ≠ tex.VarType := by tauto
        rw [if_pos h3]
        exact ⟨_, rfl, rfl⟩
      · rw [if_pos h2]
        exact ⟨_, rfl, rfl⟩
    · rw [if_pos h1]
      exact ⟨_, rfl, rfl⟩
  · intro h1 h2 h3
    rw [hstep, if_neg (not_not_intro h1), if_neg (not_not_intro h2),
        if_neg (not_not_intro h3)]
    exact ⟨rfl, countP_eraseFirstP _ ws sam hfind⟩

/-- Witness for C2: `texFragment` claims `samplerFragment` from a singleton
working set, leaving it empty. -/
theorem C2_combined_candidate_rules_witness :
    ((samplerFragment.ResourceType ≠ .sampler ∨
        samplerFragment.ShaderStages ≠ texFragment.ShaderStages ∨
        samplerFragment.VarType ≠ texFragment.VarType) →
      ∃ e, claimSampler "_suffix" [samplerFragment] texFragment = .error e ∧
        VErr.kindOf e = .CombinedSamplerMismatch) ∧
    (samplerFragment.ResourceType = .sampler →
      samplerFragment.ShaderStages = texFragment.ShaderStages →
      samplerFragment.VarType = texFragment.VarType →
      claimSampler "_suffix" [samplerFragment] texFragment =
        .ok (eraseFirstP
          (combinedCandidate (texFragment.Name.getD "" ++ "_suffix") texFragment)
          [samplerFragment]) ∧
      (eraseFirstP (combinedCandidate (texFragment.Name.getD "" ++ "_suffix") texFragment)
          [samplerFragment]).countP
          (combinedCandidate (texFragment.Name.getD "" ++ "_suffix") texFragment) + 1 =
        [samplerFragment].countP
          (combinedCandidate (texFragment.Name.getD "" ++ "_suffix") texFragment)) :=
  C2_combined_candidate_rules "_suffix" texFragment samplerFragment [samplerFragment]
    rfl (by decide)

/-- Combined-mode descriptor holding only the sampler `"Tex_suffix"` and no
texture to claim it. -/
def combinedLoneSamplerDesc : PipelineResourceSignatureDesc :=
  { BindingIndex := 0, NumResources := 1, Resources := some [samplerFragment],
    NumImmutableSamplers := 0, ImmutableSamplers := none,
    UseCombinedTextureSamplers := true, CombinedSamplerSuffix := some "_suffix" }

/-- C4: in combined mode, a texture-SRV whose suffix-derived name selects no
candidate with an overlapping stage mask causes no error (the claim step
returns the working set unchanged), while any sampler-kind binding left in the
working set after resolution makes the whole validation fail with an
`UnassignedSampler`-classified error. -/
theorem C4_unmatched_texture_and_unassigned_sampler :
    (∀ (suffix : String) (tex : PipelineResourceDesc)
        (ws : List PipelineResourceDesc),
      tex.ResourceType = .textureSRV →
      ws.find? (combinedCandidate (tex.Name.getD "" ++ suffix) tex) = none →
      claimSampler suffix ws tex = .ok ws) ∧
    (∀ (Desc : PipelineResourceSignatureDesc) (supported : Bool)
        (ws ws2 : List PipelineResourceDesc),
      Desc.BindingIndex < MAX_RESOURCE_SIGNATURES →
      Desc.NumResources ≤ MAX_RESOURCES_IN_SIGNATURE →
      (Desc.NumResources != 0 && Desc.Resources.isNone) = false →
      (Desc.NumImmutableSamplers != 0 && Desc.ImmutableSamplers.isNone) = false →
      Desc.UseCombinedTextureSamplers = true →
      (Desc.CombinedSamplerSuffix.getD "").isEmpty = false →
      validateResources supported 0 (resourceList Desc) [] [] = .ok ws →
      resolveCombinedSamplers (Desc.CombinedSamplerSuffix.getD "") (resourceList Desc) ws =
        .ok ws2 →
      (∃ r ∈ ws2, r.ResourceType = .sampler) →
      ∃ e, ValidatePipelineResourceSignatureDesc Desc supported = .error e ∧
        VErr.kindOf e = .UnassignedSampler) := by
  constructor
  · intro suffix tex ws htex hnone
    rw [claimSampler, if_pos htex]
    simp only [hnone]
  · intro Desc supported ws ws2 hb hn hrn hin hcomb hsuf hres hresolve hsam
    obtain ⟨r, hmem, hkind⟩ := hsam
    have hsome : (ws2.find? (fun r => r.ResourceType == .sampler)).isSome := by
      rw [List.find?_isSome]
      exact ⟨r, hmem, by simp [hkind]⟩
    obtain ⟨r2, hr2⟩ := Option.isSome_iff_exists.mp hsome
    refine ⟨.samplerNotAssigned (r2.Name.getD ""), ?_, rfl⟩
    unfold ValidatePipelineResourceSignatureDesc
    rw [if_neg (by omega), if_neg (by omega), if_neg (by simp [hrn]),
        if_neg (by simp [hin]), if_neg (by simp [hcomb, hsuf])]
    simp only [hres, hcomb, if_true, hresolve, findUnassignedSampler, hr2]

/-- Witness for C4: the vertex-only sampler is not a stage-overlapping
candidate for the fragment texture, so the claim step leaves the working set
unchanged; and a combined-mode descriptor holding only a sampler fails with
an unassigned-sampler error. -/
theorem C4_unmatched_texture_and_unassigned_sampler_witness :
    claimSampler "_suffix" [samplerVertexOnly] texFragment = .ok [samplerVertexOnly] ∧
    (∃ e, ValidatePipelineResourceSignatureDesc combinedLoneSamplerDesc true = .error e ∧
      VErr.kindOf e = .UnassignedSampler) :=
  ⟨C4_unmatched_texture_and_unassigned_sampler.1 "_suffix" texFragment
      [samplerVertexOnly] rfl (by decide),
   C4_unmatched_texture_and_unassigned_sampler.2 combinedLoneSamplerDesc true
      [samplerFragment] [samplerFragment] (by decide) (by decide) (by decide)
      (by decide) rfl (by decide) rfl rfl
      ⟨samplerFragment, by decide, rfl⟩⟩

/-- C6: a descriptor with two resources both named `"X"` (and nothing else
irregular) validates when their stage masks `s1`, `s2` do not overlap, and
fails with the `DuplicateNameOverlappingStages`-classified error (reported at
the second resource) when they overlap. -/
theorem C6_duplicate_name_stage_overlap (s1 s2 : Nat) (h1 : s1 ≠ 0) (h2 : s2 ≠ 0) :
    (s1 &&& s2 = 0 →
      ValidatePipelineResourceSignatureDesc (duplicateNameDesc s1 s2) false = .ok ()) ∧
    (s1 &&& s2 ≠ 0 →
      ValidatePipelineResourceSignatureDesc (duplicateNameDesc s1 s2) false =
        .error (.resourceOverlappingStages 1) ∧
      VErr.kindOf (.resourceOverlappingStages 1) = .DuplicateNameOverlappingStages) := by
  have e1 : (s1 == 0) = false := by simp [h1]
  have e2 : (s2 == 0) = false := by simp [h2]
  constructor
  · intro hz
    simp [ValidatePipelineResourceSignatureDesc, duplicateNameDesc, resourceList,
          resourceAt, imtblList, validateResources, validateImtblSamplers,
          checkResourceFlags, stagesOf, addStages,
          MAX_RESOURCE_SIGNATURES, MAX_RESOURCES_IN_SIGNATURE,
          GetValidPipelineResourceFlags, PIPELINE_RESOURCE_FLAG_RUNTIME_ARRAY,
          List.range_succ, e1, e2, hz]
  · intro hnz
    refine ⟨?_, rfl⟩
    have e3 : (s1 &&& s2 != 0) = true := by simpa using hnz
    simp [ValidatePipelineResourceSignatureDesc, duplicateNameDesc, resourceList,
          resourceAt, imtblList, validateResources, validateImtblSamplers,
          checkResourceFlags, stagesOf, addStages,
          MAX_RESOURCE_SIGNATURES, MAX_RESOURCES_IN_SIGNATURE,
          GetValidPipelineResourceFlags, PIPELINE_RESOURCE_FLAG_RUNTIME_ARRAY,
          List.range_succ, e1, e2, e3]

/-- Witness for C6: stage masks `1` and `2` (disjoint) validate; masks `3`
and `2` (overlapping) fail with the duplicate-name error. -/
theorem C6_duplicate_name_stage_overlap_witness :
    ValidatePipelineResourceSignatureDesc (duplicateNameDesc 1 2) false = .ok () ∧
    ValidatePipelineResourceSignatureDesc (duplicateNameDesc 3 2) false =
      .error (.resourceOverlappingStages 1) :=
  ⟨(C6_duplicate_name_stage_overlap 1 2 (by decide) (by decide)).1 (by decide),
   ((C6_duplicate_name_stage_overlap 3 2 (by decide) (by decide)).2 (by decide)).1⟩

/-- The Boolean match condition of the immutable-sampler scan agrees with the
spec's prose: the stage masks intersect, and the entry name equals the
resource name exactly or equals the resource name with the suffix appended
when a suffix is supplied. -/
theorem immutableSamplerMatches_iff (stages : Nat) (name : String)
    (suffix : Option String) (Sam : ImmutableSamplerDesc) :
    immutableSamplerMatches stages name suffix Sam = true ↔
      (Sam.ShaderStages &&& stages ≠ 0 ∧
        (Sam.SamplerOrTextureName = some name ∨
          ∃ suf, suffix = some suf ∧
            Sam.SamplerOrTextureName = some (name ++ suf))) := by
  cases suffix with
  | none => simp [immutableSamplerMatches, StreqSuff]
  | some suf => simp [immutableSamplerMatches, StreqSuff]

/-- The index-carrying scan of `FindImmutableSampler` returns the offset of
the first matching entry, or the sentinel when none matches. -/
theorem FindImmutableSamplerLoop_characterization (stages : Nat) (name : String)
    (suffix : Option String) (l : List ImmutableSamplerDesc) (s : Nat) :
    (∃ i, i < l.length ∧
      FindImmutableSamplerLoop stages name suffix s l = s + i ∧
      immutableSamplerMatches stages name suffix (l.getD i default) = true ∧
      ∀ j, j < i →
        immutableSamplerMatches stages name suffix (l.getD j default) = false) ∨
    (FindImmutableSamplerLoop stages name suffix s l = InvalidImmutableSamplerIndex ∧
      ∀ j, j < l.length →
        immutableSamplerMatches stages name suffix (l.getD j default) = false) := by
  induction l generalizing s with
  | nil =>
    right
    exact ⟨rfl, fun j hj => absurd hj (by simp)⟩
  | cons x xs ih =>
    by_cases hx : immutableSamplerMatches stages name suffix x = true
    · left
      refine ⟨0, by simp, ?_, by simpa using hx, fun j hj => absurd hj (Nat.not_lt_zero j)⟩
      simp [FindImmutableSamplerLoop, hx]
    · have hx' : immutableSamplerMatches stages name suffix x = false := by
        simpa using hx
      have hstep : FindImmutableSamplerLoop stages name suffix s (x :: xs) =
          FindImmutableSamplerLoop stages name suffix (s + 1) xs := by
        simp [FindImmutableSamplerLoop, hx']
      rcases ih (s + 1) with ⟨i, hi, heq, hm, hprev⟩ | ⟨heq, hall⟩
      · left
        refine ⟨i + 1, by simpa using hi, ?_, by simpa using hm, ?_⟩
        · rw [hstep, heq]; omega
        · intro j hj
          cases j with
          | zero => simpa using hx'
          | succ k => simpa using hprev k (by omega)
      · right
        refine ⟨by rw [hstep, heq], ?_⟩
        intro j hj
        cases j with
        | zero => simpa using hx'
        | succ k => simpa using hall k (by simpa using hj)

/-- C8: `FindImmutableSampler` scans the array in index order and returns the
lowest index whose entry has an intersecting stage mask and whose name equals
the resource name exactly or equals the resource name with the suffix
appended (when a suffix is supplied), with every earlier entry failing that
condition; when no entry matches, it returns the `InvalidImmutableSamplerIndex`
sentinel. -/
theorem C8_find_immutable_sampler_first_match (samplers : List ImmutableSamplerDesc)
    (stages : Nat) (name : String) (suffix : Option String) :
    (∃ i, i < samplers.length ∧
      FindImmutableSampler samplers stages name suffix = i ∧
      ((samplers.getD i default).ShaderStages &&& stages ≠ 0 ∧
        ((samplers.getD i default).SamplerOrTextureName = some name ∨
          ∃ suf, suffix = some suf ∧
            (samplers.getD i default).SamplerOrTextureName = some (name ++ suf))) ∧
      ∀ j, j < i →
        ¬((samplers.getD j default).ShaderStages &&& stages ≠ 0 ∧
          ((samplers.getD j default).SamplerOrTextureName = some name ∨
            ∃ suf, suffix = some suf ∧
              (samplers.getD j default).SamplerOrTextureName = some (name ++ suf)))) ∨
    (FindImmutableSampler samplers stages name suffix = InvalidImmutableSamplerIndex ∧
      ∀ j, j < samplers.length →
        ¬((samplers.getD j default).ShaderStages &&& stages ≠ 0 ∧
          ((samplers.getD j default).SamplerOrTextureName = some name ∨
            ∃ suf, suffix = some suf ∧
              (samplers.getD j default).SamplerOrTextureName = some (name ++ suf)))) := by
  have hchar := FindImmutableSamplerLoop_characterization stages name suffix samplers 0
  rcases hchar with ⟨i, hi, heq, hm, hprev⟩ | ⟨heq, hall⟩
  · left
    refine ⟨i, hi, by simpa [FindImmutableSampler] using heq,
      (immutableSamplerMatches_iff stages name suffix _).mp hm, ?_⟩
    intro j hj hcontra
    have := (immutableSamplerMatches_iff stages name suffix (samplers.getD j default)).mpr hcontra
    rw [hprev j hj] at this
    exact Bool.false_ne_true this
  · right
    refine ⟨by simpa [FindImmutableSampler] using heq, ?_⟩
    intro j hj hcontra
    have := (immutableSamplerMatches_iff stages name suffix (samplers.getD j default)).mpr hcontra
    rw [hall j hj] at this
    exact Bool.false_ne_true this

/-- C1: two signature descriptors that `PipelineResourceSignaturesCompatible`
accepts have equal `CalculatePipelineResourceSignatureDescHash` values: the
comparison and the hash inspect exactly the same name-blind fields, and both
treat the empty signature uniformly. -/
theorem C1_compatible_implies_hash_eq (a b : PipelineResourceSignatureDesc)
    (h : PipelineResourceSignaturesCompatible a b = true) :
    CalculatePipelineResourceSignatureDescHash a =
      CalculatePipelineResourceSignatureDescHash b := by
  rw [PipelineResourceSignaturesCompatible] at h
  simp only [Bool.and_eq_true, beq_iff_eq, List.all_eq_true, List.mem_range] at h
  obtain ⟨⟨⟨⟨hbi, hnr⟩, hres⟩, hni⟩, hsam⟩ := h
  rw [hnr] at hres
  rw [hni] at hsam
  have hres2 : ∀ i < b.NumResources,
      resourceHashValues (resourceAt a i) = resourceHashValues (resourceAt b i) := by
    intro i hi
    have hc := hres i hi
    simp only [PipelineResourcesCompatible, Bool.and_eq_true, beq_iff_eq] at hc
    obtain ⟨⟨⟨⟨hg1, hg2⟩, hg3⟩, hg4⟩, hg5⟩ := hc
    simp [resourceHashValues, hg1, hg2, hg3, hg4, hg5]
  simp only [CalculatePipelineResourceSignatureDescHash]
  rw [hbi, hnr, hni]
  by_cases hC : (b.NumResources == 0 && b.NumImmutableSamplers == 0) = true
  · rw [if_pos hC, if_pos hC]
  · rw [if_neg hC, if_neg hC]
    have hfold1 : ∀ seed : Nat,
        (List.range b.NumResources).foldl
          (fun h i => (resourceHashValues (resourceAt a i)).foldl HashCombine h) seed =
        (List.range b.NumResources).foldl
          (fun h i => (resourceHashValues (resourceAt b i)).foldl HashCombine h) seed := by
      intro seed
      exact foldl_congr_on _ _ _ _
        (fun i hi acc => by rw [hres2 i (List.mem_range.mp hi)])
    rw [hfold1]
    exact foldl_congr_on _ _ _ _ (fun i hi acc => by
      obtain ⟨hs, hd⟩ := hsam i (List.mem_range.mp hi)
      rw [hs, hd])

/-- Witness for C1: two descriptors differing only in names (resource names,
immutable-sampler names, combined-sampler fields) are compatible and hash
identically. -/
theorem C1_compatible_implies_hash_eq_witness :
    PipelineResourceSignaturesCompatible
        { BindingIndex := 1, NumResources := 1,
          Resources := some [{ Name := some "A", ShaderStages := 2, ArraySize := 3,
                               ResourceType := .bufferUAV, VarType := .dynamic, Flags := 1 }],
          NumImmutableSamplers := 1,
          ImmutableSamplers := some [{ SamplerOrTextureName := some "S",
                                       ShaderStages := 4, Desc := 9 }],
          UseCombinedTextureSamplers := false, CombinedSamplerSuffix := none }
        { BindingIndex := 1, NumResources := 1,
          Resources := some [{ Name := some "Z", ShaderStages := 2, ArraySize := 3,
                               ResourceType := .bufferUAV, VarType := .dynamic, Flags := 1 }],
          NumImmutableSamplers := 1,
          ImmutableSamplers := some [{ SamplerOrTextureName := some "T",
                                       ShaderStages := 4, Desc := 9 }],
          UseCombinedTextureSamplers := true, CombinedSamplerSuffix := some "_s" }
      = true ∧
    CalculatePipelineResourceSignatureDescHash
        { BindingIndex := 1, NumResources := 1,
          Resources := some [{ Name := some "A", ShaderStages := 2, ArraySize := 3,
                               ResourceType := .bufferUAV, VarType := .dynamic, Flags := 1 }],
          NumImmutableSamplers := 1,
          ImmutableSamplers := some [{ SamplerOrTextureName := some "S",
                                       ShaderStages := 4, Desc := 9 }],
          UseCombinedTextureSamplers := false, CombinedSamplerSuffix := none } =
      CalculatePipelineResourceSignatureDescHash
        { BindingIndex := 1, NumResources := 1,
          Resources := some [{ Name := some "Z", ShaderStages := 2, ArraySize := 3,
                               ResourceType := .bufferUAV, VarType := .dynamic, Flags := 1 }],
          NumImmutableSamplers := 1,
          ImmutableSamplers := some [{ SamplerOrTextureName := some "T",
                                       ShaderStages := 4, Desc := 9 }],
          UseCombinedTextureSamplers := true, CombinedSamplerSuffix := some "_s" } :=
  ⟨by decide, C1_compatible_implies_hash_eq _ _ (by decide)⟩

end Diligent
